import Mathlib

/-!
Verification development for the generic tree-traversal engine in
`src/common/src/fold.rs`: the `Fold`/`Visit` dispatch traits, the `AndThen`
sequential-composition combinator, and the `FoldWith`/`VisitWith` structural
recursion over the built-in shapes (`Box`, `Vec`, `Option`, `String`, `Atom`,
`Either`, the uninhabited type `!`).

A transformer (`Fold<T>` instance) is stateful Rust (`fn fold(&mut self,
node: T) -> T`); it is embedded as an explicit state-passing function
`σ → T → T × σ` where `σ` is the transformer's own state.  An observer
(`Visit<T>` instance, `fn visit(&mut self, node: &T)`) produces no
replacement value, so it is embedded as `σ → T → σ`.
-/

namespace Spec2Proof

/-- Exclusive-ownership indirection, embedding Rust `Box<α>`. -/
structure Box (α : Type) : Type where
  get : α
  deriving Repr, DecidableEq

/-- Interned symbol, embedding `string_cache::Atom` (its content is a string;
the interning table is storage detail, out of scope). -/
structure Atom : Type where
  get : String
  deriving Repr, DecidableEq

/-- Sum-of-two-alternatives shape, embedding `either::Either<α, β>`. -/
inductive Either (α β : Type) : Type
  | Left : α → Either α β
  | Right : β → Either α β
  deriving Repr, DecidableEq

/-- A transformer on node type `T` with state `σ`: the embedding of a
`Fold<T>` instance's resolved `fold` behavior (`&mut self` becomes explicit
state passing). -/
def Folder (σ T : Type) : Type := σ → T → T × σ

/-- An observer on node type `T` with state `σ`: the embedding of a
`Visit<T>` instance's resolved `visit` behavior. -/
def Visitor (σ T : Type) : Type := σ → T → σ

/-- `impl Fold<T> for AndThen<F1, F2>`: `let node = self.first.fold(node);
self.second.fold(node)` — the composite built by `Fold::then`. -/
def andThenFold (f1 : Folder σ1 T) (f2 : Folder σ2 T) :
    Folder (σ1 × σ2) T :=
  fun s node =>
    let r1 := f1 s.1 node
    let r2 := f2 s.2 r1.1
    (r2.1, (r1.2, r2.2))

/-- `impl Visit<T> for AndThen<F1, F2>`: `self.first.visit(node);
self.second.visit(node);` — both calls receive the same `&T`. -/
def andThenVisit (v1 : Visitor σ1 T) (v2 : Visitor σ2 T) :
    Visitor (σ1 × σ2) T :=
  fun s node =>
    let s1 := v1 s.1 node
    let s2 := v2 s.2 node
    (s1, s2)

/-- `impl Fold<T> for Box<F>`: `(**self).fold(node)` — the boxed folder
delegates to the folder it owns. -/
def boxFolder (f : Folder σ T) : Folder (Box σ) T :=
  fun s node =>
    let r := f s.get node
    (r.1, Box.mk r.2)

/-- `impl Visit<T> for Box<F>`: `(**self).visit(node)`. -/
def boxVisitor (v : Visitor σ T) : Visitor (Box σ) T :=
  fun s node => Box.mk (v s.get node)

/-- `impl Fold<T> for &'a mut F`: `(**self).fold(node)` — the borrow's
referent is the underlying folder state itself. -/
def mutRefFolder (f : Folder σ T) : Folder σ T :=
  fun s node => f s node

/-- `impl Visit<T> for &'a mut F`: `(**self).visit(node)`. -/
def mutRefVisitor (v : Visitor σ T) : Visitor σ T :=
  fun s node => v s node

/-- `impl FoldWith<F> for Box<T>`: `box f.fold(*self)` — unwrap, fold the
inner value, rewrap. -/
def boxFoldChildren (f : Folder σ T) : Folder σ (Box T) :=
  fun s b =>
    let r := f s b.get
    (Box.mk r.1, r.2)

/-- `impl VisitWith<F> for Box<T>`: `f.visit(&**self)`. -/
def boxVisitChildren (v : Visitor σ T) : Visitor σ (Box T) :=
  fun s b => v s b.get

/-- `impl FoldWith<F> for Vec<T>`:
`self.into_iter().map(|it| f.fold(it)).collect()` — the iterator pulls
elements in order, so the folder's state threads left to right. -/
def vecFoldChildren (f : Folder σ T) : σ → List T → List T × σ
  | s, [] => ([], s)
  | s, x :: xs =>
    let r := f s x
    let rs := vecFoldChildren f r.2 xs
    (r.1 :: rs.1, rs.2)

/-- `impl VisitWith<F> for Vec<T>`:
`self.iter().for_each(|node| f.visit(node))` — elements visited in order. -/
def vecVisitChildren (v : Visitor σ T) : σ → List T → σ
  | s, [] => s
  | s, x :: xs => vecVisitChildren v (v s x) xs

/-- `impl FoldWith<F> for Option<T>`: `self.map(|t| f.fold(t))`. -/
def optionFoldChildren (f : Folder σ T) : Folder σ (Option T) :=
  fun s o =>
    match o with
    | none => (none, s)
    | some t =>
      let r := f s t
      (some r.1, r.2)

/-- `impl VisitWith<F> for Option<T>`: `if let Some(ref node) = *self {
f.visit(node) }`. -/
def optionVisitChildren (v : Visitor σ T) : Visitor σ (Option T) :=
  fun s o =>
    match o with
    | none => s
    | some t => v s t

/-- `impl FoldWith<F> for String`: no op. -/
def stringFoldChildren : Folder σ String :=
  fun s t => (t, s)

/-- `impl VisitWith<F> for String`: no op. -/
def stringVisitChildren : Visitor σ String :=
  fun s _ => s

/-- `impl FoldWith<F> for Atom<S>`: no op. -/
def atomFoldChildren : Folder σ Atom :=
  fun s t => (t, s)

/-- `impl VisitWith<F> for Atom<S>`: no op. -/
def atomVisitChildren : Visitor σ Atom :=
  fun s _ => s

/-- `impl FoldWith<F> for Either<A, B>`: fold under the active alternative,
rebuilding with the same constructor. -/
def eitherFoldChildren (fa : Folder σ A) (fb : Folder σ B) :
    Folder σ (Either A B) :=
  fun s e =>
    match e with
    | .Left a =>
      let r := fa s a
      (.Left r.1, r.2)
    | .Right b =>
      let r := fb s b
      (.Right r.1, r.2)

/-- `impl VisitWith<F> for Either<A, B>`: visit the active alternative. -/
def eitherVisitChildren (va : Visitor σ A) (vb : Visitor σ B) :
    Visitor σ (Either A B) :=
  fun s e =>
    match e with
    | .Left a => va s a
    | .Right b => vb s b

/-- `impl FoldWith<F> for !`: `self` (vacuous — no value exists). -/
def neverFoldChildren : Folder σ Empty :=
  fun s t => (t, s)

/-- `impl VisitWith<F> for !`: empty body. -/
def neverVisitChildren : Visitor σ Empty :=
  fun s _ => s

/-- `FoldWith::fold_with`: `f.fold(self)` — the dispatch-bypass helper. -/
def fold_with (t : T) (f : Folder σ T) (s : σ) : T × σ :=
  f s t

/-- `VisitWith::visit_with`: `f.visit(self)`. -/
def visit_with (t : T) (v : Visitor σ T) (s : σ) : σ :=
  v s t

/-- The built-in structural shapes a node may be made of: opaque leaves
(raw string, interned symbol), indirection, ordered sequence, optional,
sum-of-two, uninhabited. -/
inductive Shape : Type
  | strS : Shape
  | atomS : Shape
  | boxS : Shape → Shape
  | vecS : Shape → Shape
  | optS : Shape → Shape
  | eitherS : Shape → Shape → Shape
  | neverS : Shape

/-- The node type a shape denotes. -/
def Node : Shape → Type
  | .strS => String
  | .atomS => Atom
  | .boxS s => Box (Node s)
  | .vecS s => List (Node s)
  | .optS s => Option (Node s)
  | .eitherS a b => Either (Node a) (Node b)
  | .neverS => Empty

/-- The resolved `fold` of a transformer that registers no node-type-specific
rule: at every shape the default `fold` body `t.fold_children(self)` fires,
and `fold_children` recursively invokes the same resolution on each child. -/
def defaultFold (σ : Type) : (sh : Shape) → Folder σ (Node sh)
  | .strS => stringFoldChildren
  | .atomS => atomFoldChildren
  | .boxS s => boxFoldChildren (defaultFold σ s)
  | .vecS s => fun st l => vecFoldChildren (defaultFold σ s) st l
  | .optS s => optionFoldChildren (defaultFold σ s)
  | .eitherS a b => eitherFoldChildren (defaultFold σ a) (defaultFold σ b)
  | .neverS => neverFoldChildren

theorem vecFoldChildren_id (f : Folder σ T) (hf : ∀ st t, f st t = (t, st)) :
    ∀ (st : σ) (l : List T), vecFoldChildren f st l = (l, st) := by
  intro st l
  induction l generalizing st with
  | nil => rfl
  | cons x xs ih =>
    simp only [vecFoldChildren, hf, ih]

theorem vecVisitChildren_append (v : Visitor σ T) :
    ∀ (s : σ) (l1 l2 : List T),
      vecVisitChildren v s (l1 ++ l2)
        = vecVisitChildren v (vecVisitChildren v s l1) l2 := by
  intro s l1 l2
  induction l1 generalizing s with
  | nil => rfl
  | cons x xs ih =>
    simp only [List.cons_append, vecVisitChildren, List.append_eq, ih]

theorem vecFoldChildren_append (f : Folder σ T) :
    ∀ (s : σ) (l1 l2 : List T),
      vecFoldChildren f s (l1 ++ l2)
        = ((vecFoldChildren f s l1).1
             ++ (vecFoldChildren f (vecFoldChildren f s l1).2 l2).1,
           (vecFoldChildren f (vecFoldChildren f s l1).2 l2).2) := by
  intro s l1 l2
  induction l1 generalizing s with
  | nil => rfl
  | cons x xs ih =>
    simp only [List.cons_append, vecFoldChildren, List.append_eq, ih,
      List.cons_append]

theorem vecFoldChildren_length (f : Folder σ T) :
    ∀ (s : σ) (l : List T),
      (vecFoldChildren f s l).1.length = l.length := by
  intro s l
  induction l generalizing s with
  | nil => rfl
  | cons x xs ih => simp only [vecFoldChildren, List.length_cons, ih]

/-- Claim C1: for transformers, the composite built by `then` satisfies
`(F1.then(F2)).fold(N) == F2.fold(F1.fold(N))` (the second folder operates
on the first folder's already-transformed output), and nesting of `then` is
associative: `(F1.then(F2)).then(F3)` and `F1.then(F2.then(F3))` produce the
same result on every node. -/
theorem andThen_fold_composes
    (f1 : Folder σ1 T) (f2 : Folder σ2 T) (f3 : Folder σ3 T)
    (s1 : σ1) (s2 : σ2) (s3 : σ3) (n : T) :
    (andThenFold f1 f2 (s1, s2) n).1 = (f2 s2 (f1 s1 n).1).1
    ∧ (andThenFold (andThenFold f1 f2) f3 ((s1, s2), s3) n).1
        = (andThenFold f1 (andThenFold f2 f3) (s1, (s2, s3)) n).1 :=
  ⟨rfl, rfl⟩

/-- Claim C2: for observers, the composite built by `then` runs the first
observer and then the second, both on the identical original node `n` —
neither sees a value altered by the other, since observers produce no
replacement value. -/
theorem andThen_visit_original
    (v1 : Visitor σ1 T) (v2 : Visitor σ2 T) (s1 : σ1) (s2 : σ2) (n : T) :
    andThenVisit v1 v2 (s1, s2) n = (v1 s1 n, v2 s2 n) :=
  rfl

/-- Claim C3: a transformer with no node-type-specific rule (every node
resolves to the default structural recursion) returns, on any node built
solely from the built-in shapes, a value structurally equal to its input
(and leaves its state untouched). -/
theorem default_fold_identity (σ : Type) :
    ∀ (sh : Shape) (st : σ) (n : Node sh), defaultFold σ sh st n = (n, st) := by
  intro sh
  induction sh with
  | strS => intro st n; rfl
  | atomS => intro st n; rfl
  | boxS s ih =>
    intro st n
    obtain ⟨t⟩ := n
    simp only [defaultFold, boxFoldChildren, ih]
  | vecS s ih =>
    intro st n
    exact vecFoldChildren_id (defaultFold σ s) ih st n
  | optS s ih =>
    intro st n
    cases n with
    | none => rfl
    | some t => simp only [defaultFold, optionFoldChildren, ih]
  | eitherS a b iha ihb =>
    intro st n
    cases n with
    | Left x => simp only [defaultFold, eitherFoldChildren, iha]
    | Right y => simp only [defaultFold, eitherFoldChildren, ihb]
  | neverS => intro st n; exact n.elim

/-- Claim C4: default observation of an ordered sequence visits elements
strictly in sequence order (for `[a, b, c]`: `a` then `b` then `c`), and
default transformation applies the child operation to each element in order,
rebuilding a sequence that preserves element order (and length). -/
theorem vec_children_order
    (f : Folder σ T) (v : Visitor σ T) (s : σ) (l1 l2 : List T) (a b c : T) :
    vecVisitChildren v s (l1 ++ l2)
        = vecVisitChildren v (vecVisitChildren v s l1) l2
    ∧ vecVisitChildren v s [a, b, c] = v (v (v s a) b) c
    ∧ (vecFoldChildren f s (l1 ++ l2)).1
        = (vecFoldChildren f s l1).1
            ++ (vecFoldChildren f (vecFoldChildren f s l1).2 l2).1
    ∧ (vecFoldChildren f s [a, b, c]).1
        = [(f s a).1, (f (f s a).2 b).1, (f (f (f s a).2 b).2 c).1]
    ∧ (vecFoldChildren f s l1).1.length = l1.length := by
  refine ⟨vecVisitChildren_append v s l1 l2, rfl, ?_, rfl,
    vecFoldChildren_length f s l1⟩
  rw [vecFoldChildren_append f s l1 l2]

/-- Claim C5: default transformation of an optional node preserves presence:
an absent optional stays absent with the state untouched (no child operation
runs), and a present optional stays present with its child transformed. -/
theorem option_fold_children_presence (f : Folder σ T) (s : σ) (t : T) :
    optionFoldChildren f s none = (none, s)
    ∧ optionFoldChildren f s (some t) = (some (f s t).1, (f s t).2) :=
  ⟨rfl, rfl⟩

/-- Claim C6: default transformation of a sum-of-two node preserves the
active alternative: a `Left` input yields a `Left` of its transformed child
(never a `Right`), and symmetrically for `Right`. -/
theorem either_fold_children_preserves_side
    (fa : Folder σ A) (fb : Folder σ B) (s : σ) (a : A) (b : B) :
    eitherFoldChildren fa fb s (.Left a) = (.Left (fa s a).1, (fa s a).2)
    ∧ eitherFoldChildren fa fb s (.Right b) = (.Right (fb s b).1, (fb s b).2)
    ∧ (∀ b2 : B, (eitherFoldChildren fa fb s (.Left a)).1 ≠ .Right b2)
    ∧ (∀ a2 : A, (eitherFoldChildren fa fb s (.Right b)).1 ≠ .Left a2) := by
  refine ⟨rfl, rfl, ?_, ?_⟩ <;> intro x h <;> simp [eitherFoldChildren] at h

/-- Claim C7: default traversal of an opaque leaf (raw string or interned
symbol) is inert: transformation returns the leaf unchanged with the state
untouched, and observation performs no child-level callback (the state is
returned as-is). -/
theorem leaf_children_inert (s : σ) (t : String) (a : Atom) :
    stringFoldChildren s t = (t, s) ∧ stringVisitChildren s t = s
    ∧ atomFoldChildren s a = (a, s) ∧ atomVisitChildren s a = s :=
  ⟨rfl, rfl, rfl, rfl⟩

/-- Claim C8: accessing a transformer or observer through an
exclusive-ownership box or an exclusive borrow delegates to the underlying
instance: the transformed node and the underlying state evolution are
identical to direct access. -/
theorem forwarding_transparent
    (f : Folder σ T) (v : Visitor σ T) (s : σ) (n : T) :
    boxFolder f (Box.mk s) n = ((f s n).1, Box.mk (f s n).2)
    ∧ mutRefFolder f s n = f s n
    ∧ boxVisitor v (Box.mk s) n = Box.mk (v s n)
    ∧ mutRefVisitor v s n = v s n :=
  ⟨rfl, rfl, rfl, rfl⟩

/-- Claim C9: default transformation of an indirection node recurses into
the pointed-to value, applies the child operation, and rewraps the result in
a fresh indirection; default observation visits the pointed-to value. -/
theorem box_children_roundtrip (f : Folder σ T) (v : Visitor σ T) (s : σ) (t : T) :
    boxFoldChildren f s (Box.mk t) = (Box.mk (f s t).1, (f s t).2)
    ∧ boxVisitChildren v s (Box.mk t) = v s t :=
  ⟨rfl, rfl⟩

/-- Claim C10: the dispatch-bypass helpers are extensionally equal to direct
dispatch: `t.fold_with(f)` returns exactly `f.fold(t)`, and
`t.visit_with(v)` has exactly the effect of `v.visit(t)`. -/
theorem fold_with_eq_direct (f : Folder σ T) (v : Visitor σ T) (s : σ) (t : T) :
    fold_with t f s = f s t ∧ visit_with t v s = v s t :=
  ⟨rfl, rfl⟩

end Spec2Proof
